import Mathlib

/-!
Verification development for the Video-Blog-Converter repository.

The repository consists of an Express relay server (`server.js`) with two POST
endpoints, `/api/clean-transcript` and `/api/generate-content`, that validate
the request body, issue at most one outbound HTTPS call to an external
chat-completion API, and unwrap or error-map the upstream response; and a React
client (`VideoBlogConverter.js`) whose `handleProcess` pipeline extracts a
YouTube video id, cleans the transcript via the relay, generates SEO content
via the relay, and assembles the displayed results.

The embedding below models each handler as a pure function of the request
body, the relevant environment variable, and an oracle describing the outcome
of the (at most one) outbound call.  Each handler also returns the number of
outbound HTTPS calls it issued, so that call-count claims are statable.  The
client pipeline is modelled the same way, returning the ordered list of relay
calls it makes.  JavaScript truthiness on strings (undefined / null / "" are
falsy) is modelled with `Option String` plus an emptiness test.
-/

/-- JavaScript truthiness for an optional string: `undefined`, `null` and the
empty string are falsy.  Models `if (!x)` checks in the source. -/
def jsFalsy : Option String → Bool
  | none => true
  | some s => s = ""

/-- Models the JavaScript expression `x || d` where `x` is an optional string:
the default `d` is used when `x` is absent or empty (falsy). -/
def strOrElse (x : Option String) (d : String) : String :=
  match x with
  | none => d
  | some s => if s = "" then d else s

/-- List-level prefix test; models JavaScript `s.startsWith(p)`. -/
def strStartsWith (s p : String) : Bool :=
  s.toList.take p.toList.length = p.toList

/-- Models JavaScript `String.prototype.trim`: remove leading and trailing
whitespace characters. -/
def jsTrim (s : String) : String :=
  String.mk (((s.toList.dropWhile Char.isWhitespace).reverse.dropWhile
    Char.isWhitespace).reverse)

/-! ## JSON values

A concrete JSON value type, used for the body of `/api/generate-content`
responses (`res.json(generatedContent)`) and for the client's FAQ-schema
object.  Number literals keep their lexeme, since no claim depends on numeric
evaluation. -/

/-- A JSON value.  `num` stores the source lexeme of the number. -/
inductive Json where
  | null
  | bool (b : Bool)
  | num (lexeme : String)
  | str (s : String)
  | arr (elems : List Json)
  | obj (fields : List (String × Json))

/-- Field lookup in an association list of JSON object members. -/
def lookupField (key : String) : List (String × Json) → Option Json
  | [] => none
  | (k, v) :: fs => if k = key then some v else lookupField key fs

/-- Field lookup on a JSON value (objects only). -/
def jsonLookup (key : String) : Json → Option Json
  | Json.obj fields => lookupField key fields
  | _ => none

/-! ## JSON parsing

Models JavaScript `JSON.parse` as used by the `/api/generate-content` handler:
a recursive-descent parser for the JSON grammar (ws value ws, with objects,
arrays, strings with escapes, numbers, `true`, `false`, `null`), returning
`none` where `JSON.parse` throws.  Recursion is fuelled; the fuel passed by
`jsonParse` exceeds any possible descent depth.  Surrogate pairs in `\u`
escapes are decoded as individual code points. -/

/-- Drop leading JSON whitespace (space, tab, line feed, carriage return). -/
def skipWs (cs : List Char) : List Char :=
  cs.dropWhile fun c => c = ' ' || c = '\t' || c = '\n' || c = '\r'

/-- Hexadecimal digit test for `\u` escapes. -/
def isHexDigitChar (c : Char) : Bool :=
  c.isDigit || ('a' ≤ c && c ≤ 'f') || ('A' ≤ c && c ≤ 'F')

/-- Value of a hexadecimal digit. -/
def hexDigitVal (c : Char) : Nat :=
  if c.isDigit then c.toNat - '0'.toNat
  else if 'a' ≤ c && c ≤ 'f' then c.toNat - 'a'.toNat + 10
  else c.toNat - 'A'.toNat + 10

/-- Parse the body of a JSON string after the opening quote.  Returns the
decoded characters and the remainder after the closing quote.  Raw control
characters are rejected, as in `JSON.parse`. -/
def parseStringBody : Nat → List Char → Option (List Char × List Char)
  | 0, _ => none
  | _ + 1, [] => none
  | fuel + 1, c :: cs =>
    if c = '"' then some ([], cs)
    else if c = '\\' then
      match cs with
      | [] => none
      | e :: cs2 =>
        if e = '"' then
          (parseStringBody fuel cs2).map fun (s, r) => ('"' :: s, r)
        else if e = '\\' then
          (parseStringBody fuel cs2).map fun (s, r) => ('\\' :: s, r)
        else if e = '/' then
          (parseStringBody fuel cs2).map fun (s, r) => ('/' :: s, r)
        else if e = 'b' then
          (parseStringBody fuel cs2).map fun (s, r) => ('\x08' :: s, r)
        else if e = 'f' then
          (parseStringBody fuel cs2).map fun (s, r) => ('\x0c' :: s, r)
        else if e = 'n' then
          (parseStringBody fuel cs2).map fun (s, r) => ('\n' :: s, r)
        else if e = 'r' then
          (parseStringBody fuel cs2).map fun (s, r) => ('\r' :: s, r)
        else if e = 't' then
          (parseStringBody fuel cs2).map fun (s, r) => ('\t' :: s, r)
        else if e = 'u' then
          match cs2 with
          | h1 :: h2 :: h3 :: h4 :: cs3 =>
            if isHexDigitChar h1 && isHexDigitChar h2 && isHexDigitChar h3 &&
                isHexDigitChar h4 then
              let code := ((hexDigitVal h1 * 16 + hexDigitVal h2) * 16 +
                hexDigitVal h3) * 16 + hexDigitVal h4
              (parseStringBody fuel cs3).map fun (s, r) =>
                (Char.ofNat code :: s, r)
            else none
          | _ => none
        else none
    else if c.toNat < 0x20 then none
    else (parseStringBody fuel cs).map fun (s, r) => (c :: s, r)

/-- Split a character list into its leading run of decimal digits and the
rest. -/
def digitSpan (cs : List Char) : List Char × List Char :=
  (cs.takeWhile Char.isDigit, cs.dropWhile Char.isDigit)

/-- Parse the integer part of a JSON number: `0` or a nonzero digit followed
by digits. -/
def parseIntPart : List Char → Option (List Char × List Char)
  | [] => none
  | c :: cs =>
    if c = '0' then some ([c], cs)
    else if c.isDigit then
      let (ds, rest) := digitSpan cs
      some (c :: ds, rest)
    else none

/-- Parse an optional fraction part of a JSON number. -/
def parseFracPart (cs : List Char) : Option (List Char × List Char) :=
  match cs with
  | '.' :: cs1 =>
    let (ds, rest) := digitSpan cs1
    if ds.isEmpty then none else some ('.' :: ds, rest)
  | _ => some ([], cs)

/-- Parse an optional exponent part of a JSON number. -/
def parseExpPart (cs : List Char) : Option (List Char × List Char) :=
  match cs with
  | [] => some ([], [])
  | e :: cs1 =>
    if e = 'e' || e = 'E' then
      let (sgn, cs2) : List Char × List Char :=
        match cs1 with
        | s :: t => if s = '+' || s = '-' then ([s], t) else ([], cs1)
        | [] => ([], cs1)
      let (ds, rest) := digitSpan cs2
      if ds.isEmpty then none else some (e :: (sgn ++ ds), rest)
    else some ([], cs)

/-- Parse a JSON number, returning its lexeme and the remainder. -/
def parseNumber (cs : List Char) : Option (List Char × List Char) :=
  let (neg, cs1) : List Char × List Char :=
    match cs with
    | '-' :: t => (['-'], t)
    | _ => ([], cs)
  match parseIntPart cs1 with
  | none => none
  | some (ip, cs2) =>
    match parseFracPart cs2 with
    | none => none
    | some (fp, cs3) =>
      match parseExpPart cs3 with
      | none => none
      | some (ep, cs4) => some (neg ++ ip ++ fp ++ ep, cs4)

mutual

/-- Parse a JSON value (after skipping leading whitespace). -/
def parseValue : Nat → List Char → Option (Json × List Char)
  | 0, _ => none
  | fuel + 1, cs =>
    match skipWs cs with
    | [] => none
    | c :: rest =>
      if c = '"' then
        match parseStringBody (rest.length + 1) rest with
        | some (s, r) => some (Json.str (String.mk s), r)
        | none => none
      else if c = '[' then
        match skipWs rest with
        | ']' :: r2 => some (Json.arr [], r2)
        | r1 =>
          match parseElements fuel r1 with
          | some (es, r2) => some (Json.arr es, r2)
          | none => none
      else if c = '\x7b' then
        match skipWs rest with
        | '\x7d' :: r2 => some (Json.obj [], r2)
        | r1 =>
          match parseMembers fuel r1 with
          | some (fs, r2) => some (Json.obj fs, r2)
          | none => none
      else if c = 't' then
        if (c :: rest).take 4 = "true".toList then
          some (Json.bool true, (c :: rest).drop 4)
        else none
      else if c = 'f' then
        if (c :: rest).take 5 = "false".toList then
          some (Json.bool false, (c :: rest).drop 5)
        else none
      else if c = 'n' then
        if (c :: rest).take 4 = "null".toList then
          some (Json.null, (c :: rest).drop 4)
        else none
      else
        match parseNumber (c :: rest) with
        | some (lex, r) => some (Json.num (String.mk lex), r)
        | none => none

/-- Parse the comma-separated elements of a JSON array up to `]`. -/
def parseElements : Nat → List Char → Option (List Json × List Char)
  | 0, _ => none
  | fuel + 1, cs =>
    match parseValue fuel cs with
    | none => none
    | some (j, r1) =>
      match skipWs r1 with
      | ',' :: r2 =>
        match parseElements fuel r2 with
        | some (js, r3) => some (j :: js, r3)
        | none => none
      | ']' :: r2 => some ([j], r2)
      | _ => none

/-- Parse the comma-separated members of a JSON object up to the closing
brace. -/
def parseMembers : Nat → List Char → Option (List (String × Json) × List Char)
  | 0, _ => none
  | fuel + 1, cs =>
    match skipWs cs with
    | '"' :: r1 =>
      match parseStringBody (r1.length + 1) r1 with
      | none => none
      | some (k, r2) =>
        match skipWs r2 with
        | ':' :: r3 =>
          match parseValue fuel r3 with
          | none => none
          | some (v, r4) =>
            match skipWs r4 with
            | ',' :: r5 =>
              match parseMembers fuel r5 with
              | some (fs, r6) => some ((String.mk k, v) :: fs, r6)
              | none => none
            | '\x7d' :: r5 => some ([(String.mk k, v)], r5)
            | _ => none
        | _ => none
    | _ => none

end

/-- Models `JSON.parse(s)`: parse one JSON value and require only whitespace
after it; `none` models a thrown `SyntaxError`. -/
def jsonParse (s : String) : Option Json :=
  match parseValue (2 * s.toList.length + 2) s.toList with
  | some (j, rest) => if skipWs rest = [] then some j else none
  | none => none

/-! ## JSON serialization

Models `JSON.stringify(value, null, 2)` as used by the client's
`generateFAQSchema`: pretty-printing with two-space indentation, `": "` after
keys, and `",\n"` between items. -/

/-- Escape one character for a JSON string literal, as `JSON.stringify`
does. -/
def jsonEscapeChar (c : Char) : List Char :=
  if c = '"' then ['\\', '"']
  else if c = '\\' then ['\\', '\\']
  else if c = '\n' then ['\\', 'n']
  else if c = '\r' then ['\\', 'r']
  else if c = '\t' then ['\\', 't']
  else if c = '\x08' then ['\\', 'b']
  else if c = '\x0c' then ['\\', 'f']
  else if c.toNat < 0x20 then
    ['\\', 'u', '0', '0', Nat.digitChar (c.toNat / 16), Nat.digitChar (c.toNat % 16)]
  else [c]

/-- Quote and escape a string as a JSON string literal. -/
def jsonQuote (s : String) : String :=
  "\"" ++ String.mk (s.toList.map jsonEscapeChar).flatten ++ "\""

/-- A run of `n` spaces, for `JSON.stringify` indentation. -/
def padSpaces (n : Nat) : String :=
  String.mk (List.replicate n ' ')

/-- Pretty-print a JSON value at the given indentation, in the format of
`JSON.stringify(value, null, 2)`: nonempty arrays and objects put each item
on its own line, indented two further spaces, separated by commas. -/
def jsonStringify (indent : Nat) : Json → String
  | Json.null => "null"
  | Json.bool true => "true"
  | Json.bool false => "false"
  | Json.num lex => lex
  | Json.str s => jsonQuote s
  | Json.arr [] => "[]"
  | Json.arr (x :: xs) =>
    "[\n" ++
      String.intercalate ",\n" ((x :: xs).attach.map fun y =>
        padSpaces (indent + 2) ++ jsonStringify (indent + 2) y.1) ++
      "\n" ++ padSpaces indent ++ "]"
  | Json.obj [] => "\x7b\x7d"
  | Json.obj (f :: fs) =>
    "\x7b\n" ++
      String.intercalate ",\n" ((f :: fs).attach.map fun g =>
        padSpaces (indent + 2) ++ jsonQuote g.1.1 ++ ": " ++
          jsonStringify (indent + 2) g.1.2) ++
      "\n" ++ padSpaces indent ++ "\x7d"
termination_by j => sizeOf j
decreasing_by
  · have h := List.sizeOf_lt_of_mem y.2
    simp only [Json.arr.sizeOf_spec]
    omega
  · have h := List.sizeOf_lt_of_mem g.2
    obtain ⟨⟨a, b⟩, hmem⟩ := g
    simp only [Json.obj.sizeOf_spec]
    simp only [Prod.mk.sizeOf_spec] at h
    omega

/-! ## Markdown-fence stripping

Models the `/api/generate-content` post-processing
`responseText.replace(/```json\n?/g, "").replace(/```\n?/g, "").trim()`:
two sequential global replacements (each scanning left to right, continuing
after each deletion without revisiting already-emitted output), then a trim. -/

/-- One global replacement pass removing every occurrence of `tok` together
with an optional following newline, scanning left to right.  The fuel is the
input length; each step consumes at least one character. -/
def removeTokenNLAux (tok : List Char) : Nat → List Char → List Char
  | 0, cs => cs
  | _ + 1, [] => []
  | fuel + 1, c :: cs =>
    if (c :: cs).take tok.length = tok then
      let rest := (c :: cs).drop tok.length
      let rest2 : List Char :=
        match rest with
        | '\n' :: t => t
        | _ => rest
      removeTokenNLAux tok fuel rest2
    else c :: removeTokenNLAux tok fuel cs

/-- Remove every occurrence of `tok` (with an optional following newline),
as `s.replace(/tok\n?/g, "")`. -/
def removeTokenNL (tok cs : List Char) : List Char :=
  removeTokenNLAux tok cs.length cs

/-- Models the markdown cleanup applied to the upstream message text before
`JSON.parse`: strip ```json fences, then ``` fences, then trim. -/
def stripMarkdown (s : String) : String :=
  jsTrim (String.mk (removeTokenNL "```".toList
    (removeTokenNL "```json".toList s.toList)))

/-! ## Server model

The two POST handlers of `server.js`.  Each is a function of the decoded
request-body fields, the `OPENAI_API_KEY` environment variable, and an
`Upstream` oracle giving the outcome of the single `fetch` to the external
API.  The result pairs the HTTP response with the number of outbound calls
actually issued (0 when the handler returns before `fetch`, 1 afterwards).
Logging (`console.log` and `console.error`) has no observable effect and is
not modelled; the prompt string sent upstream is likewise not modelled, as
only the occurrence of the call is observable to the claims. -/

/-- Result of `errorData = await response.json()` on a non-ok upstream
response: `errorMessage` is `errorData.error?.message` and `message` is
`errorData.message` (either may be absent). -/
structure ErrData where
  errorMessage : Option String
  message : Option String
deriving DecidableEq

/-- Outcome of the single outbound `fetch` to the chat-completion API:
the fetch (or subsequent body read) threw, the response was non-ok with the
given status and parsed error body, or the response was ok with the given
message text (`data.choices[0].message.content`). -/
inductive Upstream where
  | fetchErr (msg : String)
  | notOk (status : Nat) (errData : ErrData)
  | ok (text : String)
deriving DecidableEq

/-- Response body written by the server: an error object `\x7b error: e \x7d`,
a `\x7b cleanedTranscript: t \x7d` object, a JSON value passed through
verbatim, or the health-check object. -/
inductive Body where
  | errorMsg (error : String)
  | cleaned (cleanedTranscript : String)
  | content (json : Json)
  | health (status timestamp : String)

/-- An HTTP response: status code and JSON body. -/
structure HttpResponse where
  status : Nat
  body : Body

/-- The `/api/clean-transcript` handler. -/
def cleanTranscriptHandler (transcript : Option String) (apiKey : Option String)
    (up : Upstream) : HttpResponse × Nat :=
  if jsFalsy transcript then
    (⟨400, Body.errorMsg "Transcript is required"⟩, 0)
  else
    match apiKey with
    | none => (⟨500, Body.errorMsg "OPENAI_API_KEY not configured"⟩, 0)
    | some key =>
      if key = "" then (⟨500, Body.errorMsg "OPENAI_API_KEY not configured"⟩, 0)
      else if strStartsWith key "sk-" = false then
        (⟨500, Body.errorMsg
          "Failed to clean transcript: Invalid OPENAI_API_KEY format. Should start with sk-"⟩, 0)
      else
        match up with
        | Upstream.fetchErr msg =>
          (⟨500, Body.errorMsg ("Failed to clean transcript: " ++ msg)⟩, 1)
        | Upstream.notOk status ed =>
          (⟨status, Body.errorMsg
            ("Failed to clean transcript: " ++ strOrElse ed.errorMessage "Unknown error")⟩, 1)
        | Upstream.ok text =>
          (⟨200, Body.cleaned (jsTrim text)⟩, 1)

/-- The status-specific error message chosen by `/api/generate-content` for a
non-ok upstream response (OpenAI revision of `server.js`). -/
def generateErrorMessage (status : Nat) (ed : ErrData) : String :=
  if status = 429 then
    "OpenAI API rate limit exceeded. Please try again in a few minutes."
  else if status = 401 then "Invalid API key configuration"
  else if status = 400 then "Invalid request format"
  else strOrElse ed.errorMessage (strOrElse ed.message "Service temporarily unavailable")

/-- The status-specific error message chosen by `/api/generate-content` in the
Anthropic revision of `server.js` (identical handler except that the
rate-limit-style branch tests status 529). -/
def claudeGenerateErrorMessage (status : Nat) (ed : ErrData) : String :=
  if status = 529 then
    "Claude API is temporarily overloaded. Please try again in a few minutes."
  else if status = 401 then "Invalid API key configuration"
  else if status = 400 then "Invalid request format"
  else strOrElse ed.errorMessage (strOrElse ed.message "Service temporarily unavailable")

/-- The `/api/generate-content` handler.  `videoTitle` only flows into the
prompt, which is not modelled, so it does not affect the result. -/
def generateContentHandler (transcript videoTitle : Option String)
    (apiKey : Option String) (up : Upstream) : HttpResponse × Nat :=
  if jsFalsy transcript then
    (⟨400, Body.errorMsg "Transcript is required"⟩, 0)
  else
    match apiKey with
    | none => (⟨500, Body.errorMsg "OPENAI_API_KEY not configured"⟩, 0)
    | some key =>
      if key = "" then (⟨500, Body.errorMsg "OPENAI_API_KEY not configured"⟩, 0)
      else if strStartsWith key "sk-" = false then
        (⟨500, Body.errorMsg
          "Failed to generate content: Invalid OPENAI_API_KEY format. Should start with sk-"⟩, 0)
      else
        match up with
        | Upstream.fetchErr msg =>
          (⟨500, Body.errorMsg ("Failed to generate content: " ++ msg)⟩, 1)
        | Upstream.notOk status ed =>
          (⟨status, Body.errorMsg
            ("API request failed (" ++ toString status ++ "): " ++
              generateErrorMessage status ed)⟩, 1)
        | Upstream.ok text =>
          match jsonParse (stripMarkdown text) with
          | some j => (⟨200, Body.content j⟩, 1)
          | none => (⟨500, Body.errorMsg "Failed to parse generated content"⟩, 1)

/-- True when the single outbound call did not produce an ok response. -/
def upstreamFailed : Upstream → Bool
  | Upstream.ok _ => false
  | _ => true

/-! ## Request-level server model

For the statelessness claim: `server.js` keeps no module-level mutable state,
so serving a request is a pure function of the request (plus environment and
upstream outcome), and a trace of requests is served by `List.map`.  The
health endpoint's `new Date().toISOString()` is modelled as an explicit
`now` input. -/

/-- One incoming request together with its ambient inputs (environment
variable, upstream outcome, clock). -/
inductive ServerInput where
  | cleanPost (transcript : Option String) (apiKey : Option String) (up : Upstream)
  | generatePost (transcript videoTitle : Option String) (apiKey : Option String)
    (up : Upstream)
  | healthGet (now : String)

/-- Serve one request. -/
def handleInput : ServerInput → HttpResponse × Nat
  | ServerInput.cleanPost t k u => cleanTranscriptHandler t k u
  | ServerInput.generatePost t v k u => generateContentHandler t v k u
  | ServerInput.healthGet now => (⟨200, Body.health "OK" now⟩, 0)

/-- Serve a trace of requests in order.  There is no server state, so this is
a map. -/
def serveAll (inputs : List ServerInput) : List (HttpResponse × Nat) :=
  inputs.map handleInput

/-! ## Client model

The `handleProcess` pipeline of `VideoBlogConverter.js`, modelled as a pure
function of the form inputs (`url`, `transcript`) and oracles for the two
relay calls.  The returned list records, in order, the relay calls the run
issues.  UI state updates (`setProcessingStep`, `updateStep`, delays) have no
observable effect on the results and are not modelled. -/

/-- Characters excluded from a video id by the character class `[^&\n?#]` in
`extractVideoId`. -/
def isStopChar (c : Char) : Bool :=
  c = '&' || c = '\n' || c = '?' || c = '#'

/-- A character that may appear in a captured video id. -/
def idChar (c : Char) : Bool :=
  !(isStopChar c)

/-- First alternative of the `extractVideoId` regular expression. -/
def marker1 : List Char := "youtube.com/watch?v=".toList

/-- Second alternative of the `extractVideoId` regular expression. -/
def marker2 : List Char := "youtu.be/".toList

/-- Attempt to match one marker alternative at the current position: the
marker must be a prefix and must be followed by at least one id character;
the capture is the maximal id-character run (the greedy `[^&\n?#]+`). -/
def tryMarker (m cs : List Char) : Option (List Char) :=
  if cs.take m.length = m then
    let id := (cs.drop m.length).takeWhile idChar
    if id.isEmpty then none else some id
  else none

/-- Left-to-right scan of `url.match(/(?:youtube\.com\/watch\?v=|youtu\.be\/)([^&\n?#]+)/)`:
at each position try the first alternative, then the second, then advance. -/
def findVideoId : List Char → Option (List Char)
  | [] => none
  | c :: cs =>
    match tryMarker marker1 (c :: cs) with
    | some id => some id
    | none =>
      match tryMarker marker2 (c :: cs) with
      | some id => some id
      | none => findVideoId cs

/-- The client's `extractVideoId`: the first capture of the regular
expression, or `null` when there is no match. -/
def extractVideoId (url : String) : Option String :=
  (findVideoId url.toList).map fun l => String.mk l

/-- A FAQ entry of the generated content. -/
structure Faq where
  question : String
  answer : String
deriving DecidableEq

/-- The fields of the `/api/generate-content` response object that the client
reads.  `schemaMarkup` is optional because the client tests it for
truthiness. -/
structure GeneratedContent where
  seoTitle : String
  metaDescription : String
  faqs : List Faq
  keyTakeaways : List String
  schemaMarkup : Option String
deriving DecidableEq

/-- Outcome of the client's `/api/clean-transcript` call: non-ok HTTP
response, a thrown fetch/parse error, or an ok response whose
`cleanedTranscript` field may be absent. -/
inductive CleanOutcome where
  | httpError
  | networkError
  | ok (cleanedTranscript : Option String)
deriving DecidableEq

/-- Outcome of the client's `/api/generate-content` call: non-ok HTTP
response carrying `errorData.error`, a thrown error carrying
`error.message`, or an ok response with the generated content. -/
inductive GenOutcome where
  | httpError (errMsg : Option String)
  | networkError (msg : Option String)
  | ok (content : GeneratedContent)
deriving DecidableEq

/-- A relay call issued by the client, with the request-body fields. -/
inductive ApiCall where
  | clean (transcript : String)
  | generate (transcript : String) (videoTitle : String)
deriving DecidableEq

/-- The client's `formatTranscript`: empty input short-circuits without a
network call; any failure falls back to the original text; an ok response
yields `data.cleanedTranscript || text`.  Returns the resulting transcript
and the relay calls made. -/
def formatTranscript (text : String) (outcome : CleanOutcome) :
    String × List ApiCall :=
  if text = "" then ("", [])
  else
    match outcome with
    | CleanOutcome.httpError => (text, [ApiCall.clean text])
    | CleanOutcome.networkError => (text, [ApiCall.clean text])
    | CleanOutcome.ok ct => (strOrElse ct text, [ApiCall.clean text])

/-- True when the clean call failed in the sense of the fallback: non-ok
response, thrown error, or missing/empty `cleanedTranscript`. -/
def cleanFailed : CleanOutcome → Bool
  | CleanOutcome.httpError => true
  | CleanOutcome.networkError => true
  | CleanOutcome.ok ct => jsFalsy ct

/-- The results object assembled at the end of a successful run. -/
structure Results where
  videoId : String
  formattedTranscript : String
  thumbnailUrl : String
  seoTitle : String
  metaDescription : String
  faqs : List Faq
  keyTakeaways : List String
  schemaMarkup : String
deriving DecidableEq

/-- Outcome of a `handleProcess` run: an alert carrying the failure message,
or the assembled results. -/
inductive ProcessResult where
  | alerted (message : String)
  | completed (results : Results)
deriving DecidableEq

/-- The client's FAQ-schema JSON object built by `generateFAQSchema`. -/
def faqToQuestionJson (f : Faq) : Json :=
  Json.obj [("@type", Json.str "Question"), ("name", Json.str f.question),
    ("acceptedAnswer", Json.obj [("@type", Json.str "Answer"),
      ("text", Json.str f.answer)])]

/-- The full schema object `generateFAQSchema` serializes. -/
def faqSchemaJson (faqs : List Faq) : Json :=
  Json.obj [("@context", Json.str "https://schema.org"),
    ("@type", Json.str "FAQPage"),
    ("mainEntity", Json.arr (faqs.map faqToQuestionJson))]

/-- The client's `generateFAQSchema`: a `<script type="application/ld+json">`
element wrapping `JSON.stringify(schema, null, 2)`. -/
def generateFAQSchema (faqs : List Faq) : String :=
  "<script type=\"application/ld+json\">\n" ++
    jsonStringify 0 (faqSchemaJson faqs) ++ "\n</script>"

/-- The client's `handleProcess` pipeline: input-presence guard, video-id
extraction, thumbnail derivation, transcript cleaning, content generation,
and results assembly.  Returns the outcome and the ordered relay calls. -/
def handleProcess (url transcript : String) (cleanOut : CleanOutcome)
    (genOut : GenOutcome) : ProcessResult × List ApiCall :=
  if url = "" ∨ transcript = "" then
    (ProcessResult.alerted "Please provide both URL and transcript", [])
  else
    match extractVideoId url with
    | none => (ProcessResult.alerted "Invalid YouTube URL", [])
    | some vid =>
      let videoTitle := "Video Content - " ++ vid
      let thumbnailUrl := "https://img.youtube.com/vi/" ++ vid ++ "/maxresdefault.jpg"
      let fmt := formatTranscript transcript cleanOut
      let calls := fmt.2 ++ [ApiCall.generate fmt.1 videoTitle]
      match genOut with
      | GenOutcome.httpError e =>
        (ProcessResult.alerted (strOrElse e "Failed to generate content"), calls)
      | GenOutcome.networkError m =>
        (ProcessResult.alerted (strOrElse m "Failed to generate content"), calls)
      | GenOutcome.ok content =>
        (ProcessResult.completed
          { videoId := vid
            formattedTranscript := fmt.1
            thumbnailUrl := thumbnailUrl
            seoTitle := content.seoTitle
            metaDescription := content.metaDescription
            faqs := content.faqs
            keyTakeaways := content.keyTakeaways
            schemaMarkup := strOrElse content.schemaMarkup
              (generateFAQSchema content.faqs) }, calls)

/-! ## Theorems -/

/-- C1: a POST to `/api/clean-transcript` or `/api/generate-content` whose
body has a missing, null, or empty `transcript` field is answered with status
400 and body `\x7b "error": "Transcript is required" \x7d`, and no outbound
HTTPS call is issued for it. -/
theorem missing_transcript_rejected_without_upstream_call
    (t apiKey videoTitle : Option String) (up : Upstream)
    (h : jsFalsy t = true) :
    cleanTranscriptHandler t apiKey up =
      (⟨400, Body.errorMsg "Transcript is required"⟩, 0) ∧
    generateContentHandler t videoTitle apiKey up =
      (⟨400, Body.errorMsg "Transcript is required"⟩, 0) := by
  constructor <;> simp [cleanTranscriptHandler, generateContentHandler, h]

/-- Witness for C1 at a concrete request with a missing transcript. -/
theorem missing_transcript_rejected_without_upstream_call_witness :
    jsFalsy none = true ∧
    cleanTranscriptHandler none none (Upstream.ok "x") =
      (⟨400, Body.errorMsg "Transcript is required"⟩, 0) ∧
    generateContentHandler none none none (Upstream.ok "x") =
      (⟨400, Body.errorMsg "Transcript is required"⟩, 0) :=
  ⟨rfl,
    (missing_transcript_rejected_without_upstream_call none none none
      (Upstream.ok "x") rfl).1,
    (missing_transcript_rejected_without_upstream_call none none none
      (Upstream.ok "x") rfl).2⟩

/-- Helper: the clean handler issues zero or one outbound call. -/
lemma cleanCalls_le_one (t apiKey : Option String) (up : Upstream) :
    (cleanTranscriptHandler t apiKey up).2 ≤ 1 := by
  unfold cleanTranscriptHandler
  cases apiKey <;> cases up <;> split_ifs <;> try simp
  all_goals split_ifs <;> simp

/-- Helper: the generate handler issues zero or one outbound call. -/
lemma generateCalls_le_one (t videoTitle apiKey : Option String)
    (up : Upstream) :
    (generateContentHandler t videoTitle apiKey up).2 ≤ 1 := by
  unfold generateContentHandler
  cases apiKey <;> cases up <;> split_ifs <;> try simp
  all_goals split_ifs <;> (try split) <;> simp

/-- Helper: with a failed upstream outcome the clean handler's body is an
error object on every path. -/
lemma cleanBody_err_of_failed (t apiKey : Option String) (up : Upstream)
    (hf : upstreamFailed up = true) :
    ∃ e, (cleanTranscriptHandler t apiKey up).1.body = Body.errorMsg e := by
  unfold cleanTranscriptHandler
  cases apiKey <;> cases up <;> split_ifs <;> try simp_all [upstreamFailed]
  all_goals split_ifs <;> simp_all [upstreamFailed]

/-- Helper: with a failed upstream outcome the generate handler's body is an
error object on every path. -/
lemma generateBody_err_of_failed (t videoTitle apiKey : Option String)
    (up : Upstream) (hf : upstreamFailed up = true) :
    ∃ e, (generateContentHandler t videoTitle apiKey up).1.body =
      Body.errorMsg e := by
  unfold generateContentHandler
  cases apiKey <;> cases up <;> split_ifs <;> try simp_all [upstreamFailed]
  all_goals split_ifs <;> simp_all [upstreamFailed]

/-- C4: every request to either endpoint issues at most one outbound call,
and when the single call fails (non-ok status or thrown error) the server
answers with an error object without a second call. -/
theorem at_most_one_upstream_call_and_no_retry
    (t videoTitle apiKey : Option String) (up : Upstream) :
    (cleanTranscriptHandler t apiKey up).2 ≤ 1 ∧
    (generateContentHandler t videoTitle apiKey up).2 ≤ 1 ∧
    (upstreamFailed up = true →
      (∃ e, (cleanTranscriptHandler t apiKey up).1.body = Body.errorMsg e) ∧
      (∃ e, (generateContentHandler t videoTitle apiKey up).1.body =
        Body.errorMsg e)) :=
  ⟨cleanCalls_le_one t apiKey up,
    generateCalls_le_one t videoTitle apiKey up,
    fun hf => ⟨cleanBody_err_of_failed t apiKey up hf,
      generateBody_err_of_failed t videoTitle apiKey up hf⟩⟩

/-- Witness for C4 at a concrete request whose upstream call fails. -/
theorem at_most_one_upstream_call_and_no_retry_witness :
    (cleanTranscriptHandler (some "x") (some "sk-a")
      (Upstream.notOk 503 ⟨none, none⟩)).2 ≤ 1 ∧
    upstreamFailed (Upstream.notOk 503 ⟨none, none⟩) = true ∧
    (∃ e, (cleanTranscriptHandler (some "x") (some "sk-a")
      (Upstream.notOk 503 ⟨none, none⟩)).1.body = Body.errorMsg e) :=
  ⟨(at_most_one_upstream_call_and_no_retry (some "x") none (some "sk-a")
      (Upstream.notOk 503 ⟨none, none⟩)).1, rfl,
    ((at_most_one_upstream_call_and_no_retry (some "x") none (some "sk-a")
      (Upstream.notOk 503 ⟨none, none⟩)).2.2 rfl).1⟩

/-- C5: a non-ok upstream response is mirrored to the caller with the same
HTTP status and a single-error-string JSON body; `/api/generate-content`
maps status 429 (OpenAI revision) or 529 (Anthropic revision), 401 and 400
to fixed messages. -/
theorem upstream_error_status_mirrored
    (t videoTitle : Option String) (key : String) (s : Nat) (ed : ErrData)
    (ht : jsFalsy t = false) (hk : strStartsWith key "sk-" = true) :
    cleanTranscriptHandler t (some key) (Upstream.notOk s ed) =
      (⟨s, Body.errorMsg ("Failed to clean transcript: " ++
        strOrElse ed.errorMessage "Unknown error")⟩, 1) ∧
    generateContentHandler t videoTitle (some key) (Upstream.notOk s ed) =
      (⟨s, Body.errorMsg ("API request failed (" ++ toString s ++ "): " ++
        generateErrorMessage s ed)⟩, 1) ∧
    generateErrorMessage 429 ed =
      "OpenAI API rate limit exceeded. Please try again in a few minutes." ∧
    generateErrorMessage 401 ed = "Invalid API key configuration" ∧
    generateErrorMessage 400 ed = "Invalid request format" ∧
    claudeGenerateErrorMessage 529 ed =
      "Claude API is temporarily overloaded. Please try again in a few minutes." ∧
    claudeGenerateErrorMessage 401 ed = "Invalid API key configuration" ∧
    claudeGenerateErrorMessage 400 ed = "Invalid request format" := by
  have hne : key ≠ "" := by
    intro h
    subst h
    exact absurd hk (by decide)
  refine ⟨?_, ?_, ?_, ?_, ?_, ?_, ?_, ?_⟩
  · simp [cleanTranscriptHandler, ht, hk, hne]
  · simp [generateContentHandler, ht, hk, hne]
  · simp [generateErrorMessage]
  · simp [generateErrorMessage]
  · simp [generateErrorMessage]
  · simp [claudeGenerateErrorMessage]
  · simp [claudeGenerateErrorMessage]
  · simp [claudeGenerateErrorMessage]

/-- Witness for C5 at a concrete failed upstream response. -/
theorem upstream_error_status_mirrored_witness :
    jsFalsy (some "x") = false ∧
    strStartsWith "sk-abc" "sk-" = true ∧
    cleanTranscriptHandler (some "x") (some "sk-abc")
      (Upstream.notOk 503 ⟨some "boom", none⟩) =
      (⟨503, Body.errorMsg "Failed to clean transcript: boom"⟩, 1) :=
  ⟨rfl, by decide,
    (upstream_error_status_mirrored (some "x") none "sk-abc" 503
      ⟨some "boom", none⟩ rfl (by decide)).1⟩

/-- C6: on a successful upstream call, `/api/clean-transcript` answers with
the trimmed upstream message text under `cleanedTranscript` (for every
message text, JSON or not), and `/api/generate-content` passes the parsed
JSON object through verbatim with status 200. -/
theorem success_responses_unwrapped
    (t videoTitle : Option String) (key text : String)
    (ht : jsFalsy t = false) (hk : strStartsWith key "sk-" = true) :
    cleanTranscriptHandler t (some key) (Upstream.ok text) =
      (⟨200, Body.cleaned (jsTrim text)⟩, 1) ∧
    (∀ j, jsonParse (stripMarkdown text) = some j →
      generateContentHandler t videoTitle (some key) (Upstream.ok text) =
        (⟨200, Body.content j⟩, 1)) := by
  have hne : key ≠ "" := by
    intro h
    subst h
    exact absurd hk (by decide)
  constructor
  · simp [cleanTranscriptHandler, ht, hk, hne]
  · intro j hp
    simp [generateContentHandler, ht, hk, hne, hp]

/-- Witness for C6: the clean endpoint trims an ordinary non-JSON transcript,
and the generate endpoint passes a parsed payload through. -/
theorem success_responses_unwrapped_witness :
    cleanTranscriptHandler (some "x") (some "sk-abc")
      (Upstream.ok "  Speaker: hi \n") =
      (⟨200, Body.cleaned "Speaker: hi"⟩, 1) ∧
    jsonParse (stripMarkdown "  null ") = some Json.null ∧
    generateContentHandler (some "x") none (some "sk-abc")
      (Upstream.ok "  null ") = (⟨200, Body.content Json.null⟩, 1) :=
  ⟨(success_responses_unwrapped (some "x") none "sk-abc" "  Speaker: hi \n"
      rfl (by decide)).1,
    rfl,
    (success_responses_unwrapped (some "x") none "sk-abc" "  null " rfl
      (by decide)).2 Json.null rfl⟩

/-- C7: on a successful upstream call to `/api/generate-content`, the message
text is stripped of markdown fences and trimmed; if the result is not valid
JSON the server answers 500 with "Failed to parse generated content",
otherwise the parsed object is returned with status 200. -/
theorem generate_parse_failure_handling
    (t videoTitle : Option String) (key text : String)
    (ht : jsFalsy t = false) (hk : strStartsWith key "sk-" = true) :
    (jsonParse (stripMarkdown text) = none →
      generateContentHandler t videoTitle (some key) (Upstream.ok text) =
        (⟨500, Body.errorMsg "Failed to parse generated content"⟩, 1)) ∧
    (∀ j, jsonParse (stripMarkdown text) = some j →
      generateContentHandler t videoTitle (some key) (Upstream.ok text) =
        (⟨200, Body.content j⟩, 1)) := by
  have hne : key ≠ "" := by
    intro h
    subst h
    exact absurd hk (by decide)
  constructor
  · intro hp
    simp [generateContentHandler, ht, hk, hne, hp]
  · intro j hp
    simp [generateContentHandler, ht, hk, hne, hp]

/-- Witness for C7: a fenced JSON payload parses after stripping, and a
non-JSON payload yields the fixed 500 error. -/
theorem generate_parse_failure_handling_witness :
    generateContentHandler (some "x") none (some "sk-abc")
      (Upstream.ok "oops not json") =
      (⟨500, Body.errorMsg "Failed to parse generated content"⟩, 1) ∧
    generateContentHandler (some "x") none (some "sk-abc")
      (Upstream.ok "```json\n[true]\n```") =
      (⟨200, Body.content (Json.arr [Json.bool true])⟩, 1) :=
  ⟨(generate_parse_failure_handling (some "x") none "sk-abc" "oops not json"
      rfl (by decide)).1 rfl,
    (generate_parse_failure_handling (some "x") none "sk-abc"
      "```json\n[true]\n```" rfl (by decide)).2 (Json.arr [Json.bool true]) rfl⟩

/-- C8: the server keeps no state between requests: the response to a request
is a function of the request alone (body, environment, upstream outcome, and
the clock reading for `/api/health`), independent of any earlier requests in
the trace. -/
theorem server_responses_stateless
    (tr1 tr2 : List ServerInput) (i j : Nat)
    (h : tr1[i]? = tr2[j]?) :
    (serveAll tr1)[i]? = (serveAll tr2)[j]? := by
  simp only [serveAll, List.getElem?_map, h]

/-- Witness for C8: the same health request at different trace positions,
after different predecessors, gets the same response. -/
theorem server_responses_stateless_witness :
    ([ServerInput.healthGet "t"] : List ServerInput)[0]? =
      ([ServerInput.cleanPost none none (Upstream.ok ""),
        ServerInput.healthGet "t"] : List ServerInput)[1]? ∧
    (serveAll [ServerInput.healthGet "t"])[0]? =
      (serveAll [ServerInput.cleanPost none none (Upstream.ok ""),
        ServerInput.healthGet "t"])[1]? :=
  ⟨rfl,
    server_responses_stateless [ServerInput.healthGet "t"]
      [ServerInput.cleanPost none none (Upstream.ok ""),
        ServerInput.healthGet "t"] 0 1 rfl⟩

/-- Helper: the empty URL has no video id. -/
lemma extractVideoId_empty : extractVideoId "" = none := rfl

/-- Helper: a URL with an extracted video id is nonempty. -/
lemma extractVideoId_ne_empty (url vid : String)
    (hv : extractVideoId url = some vid) : url ≠ "" := by
  intro h
  rw [h, extractVideoId_empty] at hv
  cases hv

/-- Helper: on a nonempty transcript, `formatTranscript` issues exactly the
one clean call. -/
lemma formatTranscript_calls (tr : String) (c : CleanOutcome) (ht : tr ≠ "") :
    (formatTranscript tr c).2 = [ApiCall.clean tr] := by
  unfold formatTranscript
  rw [if_neg ht]
  cases c <;> rfl

/-- Helper: when the clean call fails (non-ok, thrown, or falsy
`cleanedTranscript`), `formatTranscript` returns the original text. -/
lemma formatTranscript_failed_eq (text : String) (c : CleanOutcome)
    (hfail : cleanFailed c = true) (ht : text ≠ "") :
    (formatTranscript text c).1 = text := by
  unfold formatTranscript
  rw [if_neg ht]
  cases c with
  | httpError => rfl
  | networkError => rfl
  | ok ct =>
    cases ct with
    | none => rfl
    | some s =>
      simp only [cleanFailed, jsFalsy, decide_eq_true_eq] at hfail
      simp [strOrElse, hfail]

/-- Helper: the relay-call trace of a guarded `handleProcess` run is the
clean call followed by the generate call on the formatted transcript. -/
lemma handleProcess_calls (url tr vid : String) (c : CleanOutcome)
    (g : GenOutcome) (hv : extractVideoId url = some vid) (ht : tr ≠ "") :
    (handleProcess url tr c g).2 =
      [ApiCall.clean tr,
        ApiCall.generate (formatTranscript tr c).1 ("Video Content - " ++ vid)] := by
  have hu : url ≠ "" := extractVideoId_ne_empty url vid hv
  unfold handleProcess
  rw [if_neg (by simp [hu, ht])]
  simp only [hv]
  cases g <;> simp [formatTranscript_calls tr c ht]

/-- Helper: a guarded `handleProcess` run whose generate call succeeds
completes with the assembled results object. -/
lemma handleProcess_ok_completed (url tr vid : String) (c : CleanOutcome)
    (gc : GeneratedContent) (hv : extractVideoId url = some vid)
    (ht : tr ≠ "") :
    (handleProcess url tr c (GenOutcome.ok gc)).1 =
      ProcessResult.completed
        { videoId := vid
          formattedTranscript := (formatTranscript tr c).1
          thumbnailUrl := "https://img.youtube.com/vi/" ++ vid ++ "/maxresdefault.jpg"
          seoTitle := gc.seoTitle
          metaDescription := gc.metaDescription
          faqs := gc.faqs
          keyTakeaways := gc.keyTakeaways
          schemaMarkup := strOrElse gc.schemaMarkup
            (generateFAQSchema gc.faqs) } := by
  have hu : url ≠ "" := extractVideoId_ne_empty url vid hv
  unfold handleProcess
  rw [if_neg (by simp [hu, ht])]
  simp only [hv]

/-- C2: a `handleProcess` run with a valid YouTube URL and nonempty
transcript calls the relay sequentially: the clean call on the raw
transcript first, then the generate call on the transcript cleaning
produced (the cleaned transcript, or the raw one if cleaning failed). -/
theorem client_calls_sequential (url tr vid : String) (c : CleanOutcome)
    (g : GenOutcome) (hv : extractVideoId url = some vid) (ht : tr ≠ "") :
    (handleProcess url tr c g).2 =
      [ApiCall.clean tr,
        ApiCall.generate (formatTranscript tr c).1 ("Video Content - " ++ vid)] ∧
    (cleanFailed c = true → (formatTranscript tr c).1 = tr) ∧
    (∀ ct, c = CleanOutcome.ok (some ct) → ct ≠ "" →
      (formatTranscript tr c).1 = ct) := by
  refine ⟨handleProcess_calls url tr vid c g hv ht, ?_, ?_⟩
  · intro hfail
    exact formatTranscript_failed_eq tr c hfail ht
  · intro ct hc hct
    subst hc
    unfold formatTranscript
    rw [if_neg ht]
    simp [strOrElse, hct]

/-- Witness for C2 on a concrete run whose clean call succeeds. -/
theorem client_calls_sequential_witness :
    (handleProcess "https://youtu.be/abc" "hello"
      (CleanOutcome.ok (some "clean")) (GenOutcome.httpError none)).2 =
      [ApiCall.clean "hello",
        ApiCall.generate
          (formatTranscript "hello" (CleanOutcome.ok (some "clean"))).1
          ("Video Content - " ++ "abc")] ∧
    (formatTranscript "hello" (CleanOutcome.ok (some "clean"))).1 = "clean" :=
  ⟨(client_calls_sequential "https://youtu.be/abc" "hello" "abc"
      (CleanOutcome.ok (some "clean")) (GenOutcome.httpError none) rfl
      (by decide)).1,
    (client_calls_sequential "https://youtu.be/abc" "hello" "abc"
      (CleanOutcome.ok (some "clean")) (GenOutcome.httpError none) rfl
      (by decide)).2.2 "clean" rfl (by decide)⟩

/-- C9: a failed clean call (non-ok status, thrown error, or missing/empty
`cleanedTranscript`) makes `formatTranscript` return the original transcript,
the pipeline still proceeds to a successful completion rather than surfacing
an error, and an empty input returns the empty string with no network
call. -/
theorem clean_failure_falls_back (text : String) (c : CleanOutcome)
    (hfail : cleanFailed c = true) (ht : text ≠ "") :
    (∀ c2, formatTranscript "" c2 = ("", [])) ∧
    (formatTranscript text c).1 = text ∧
    (formatTranscript text c).2 = [ApiCall.clean text] ∧
    (∀ url vid gc, extractVideoId url = some vid →
      ∃ r, (handleProcess url text c (GenOutcome.ok gc)).1 =
        ProcessResult.completed r ∧ r.formattedTranscript = text) := by
  refine ⟨fun c2 => by unfold formatTranscript; rw [if_pos rfl],
    formatTranscript_failed_eq text c hfail ht,
    formatTranscript_calls text c ht, ?_⟩
  intro url vid gc hv
  refine ⟨_, handleProcess_ok_completed url text vid c gc hv ht, ?_⟩
  exact formatTranscript_failed_eq text c hfail ht

/-- Witness for C9 on a concrete failed clean call. -/
theorem clean_failure_falls_back_witness :
    formatTranscript "" CleanOutcome.httpError = ("", []) ∧
    (formatTranscript "hello" (CleanOutcome.ok (some ""))).1 = "hello" ∧
    (∃ r, (handleProcess "https://youtu.be/abc" "hello"
        (CleanOutcome.ok (some ""))
        (GenOutcome.ok ⟨"T", "D", [], [], none⟩)).1 =
      ProcessResult.completed r ∧ r.formattedTranscript = "hello") :=
  ⟨(clean_failure_falls_back "hello" (CleanOutcome.ok (some "")) rfl
      (by decide)).1 CleanOutcome.httpError,
    (clean_failure_falls_back "hello" (CleanOutcome.ok (some "")) rfl
      (by decide)).2.1,
    (clean_failure_falls_back "hello" (CleanOutcome.ok (some "")) rfl
      (by decide)).2.2.2 "https://youtu.be/abc" "abc"
      ⟨"T", "D", [], [], none⟩ rfl⟩

/-- C10: on a successful generate call, the client's `schemaMarkup` is the
server-provided one when truthy, and otherwise the output of
`generateFAQSchema` on the returned FAQ list: a script element wrapping a
schema.org FAQPage object whose `mainEntity` holds, in order, one Question
per FAQ with `name` the question and `acceptedAnswer.text` the answer. -/
theorem schema_markup_fallback (url tr vid : String) (c : CleanOutcome)
    (gc : GeneratedContent) (hv : extractVideoId url = some vid)
    (ht : tr ≠ "") :
    (∃ r, (handleProcess url tr c (GenOutcome.ok gc)).1 =
      ProcessResult.completed r ∧
      (jsFalsy gc.schemaMarkup = true →
        r.schemaMarkup = generateFAQSchema gc.faqs) ∧
      (∀ s, gc.schemaMarkup = some s → s ≠ "" → r.schemaMarkup = s)) ∧
    generateFAQSchema gc.faqs =
      "<script type=\"application/ld+json\">\n" ++
        jsonStringify 0 (faqSchemaJson gc.faqs) ++ "\n</script>" ∧
    jsonLookup "mainEntity" (faqSchemaJson gc.faqs) =
      some (Json.arr (gc.faqs.map faqToQuestionJson)) ∧
    (∀ f, faqToQuestionJson f =
      Json.obj [("@type", Json.str "Question"), ("name", Json.str f.question),
        ("acceptedAnswer", Json.obj [("@type", Json.str "Answer"),
          ("text", Json.str f.answer)])]) := by
  refine ⟨⟨_, handleProcess_ok_completed url tr vid c gc hv ht, ?_, ?_⟩,
    rfl, rfl, fun f => rfl⟩
  · intro hfalsy
    cases hgc : gc.schemaMarkup with
    | none => simp [strOrElse, hgc]
    | some s =>
      rw [hgc] at hfalsy
      simp only [jsFalsy, decide_eq_true_eq] at hfalsy
      simp [strOrElse, hgc, hfalsy]
  · intro s hgc hs
    simp [strOrElse, hgc, hs]

/-- Witness for C10 on concrete content with a missing `schemaMarkup`. -/
theorem schema_markup_fallback_witness :
    ∃ r, (handleProcess "https://youtu.be/abc" "hi" CleanOutcome.httpError
        (GenOutcome.ok ⟨"T", "D", [⟨"q", "a"⟩], [], none⟩)).1 =
      ProcessResult.completed r ∧
      (jsFalsy (⟨"T", "D", [⟨"q", "a"⟩], [], none⟩ :
          GeneratedContent).schemaMarkup = true →
        r.schemaMarkup = generateFAQSchema (⟨"T", "D", [⟨"q", "a"⟩], [], none⟩ :
          GeneratedContent).faqs) ∧
      (∀ s, (⟨"T", "D", [⟨"q", "a"⟩], [], none⟩ :
          GeneratedContent).schemaMarkup = some s → s ≠ "" →
        r.schemaMarkup = s) :=
  (schema_markup_fallback "https://youtu.be/abc" "hi" "abc"
    CleanOutcome.httpError ⟨"T", "D", [⟨"q", "a"⟩], [], none⟩ rfl
    (by decide)).1

/-- A URL character list contains a video id in the sense of the claim: some
occurrence of a marker alternative is followed by at least one character
outside the class of `&`, newline, `?`, `#`. -/
def HasVideoId (cs : List Char) : Prop :=
  ∃ pre m c t, (m = marker1 ∨ m = marker2) ∧ cs = pre ++ (m ++ c :: t) ∧
    idChar c = true

/-- The extracted id `id` occurs right after a marker occurrence in `cs`, is
nonempty, consists only of id characters, and is maximal: the remainder is
empty or starts with a stop character. -/
def IdRunSpec (cs id : List Char) : Prop :=
  ∃ pre m rest, (m = marker1 ∨ m = marker2) ∧ cs = pre ++ (m ++ (id ++ rest)) ∧
    id ≠ [] ∧ (∀ c ∈ id, idChar c = true) ∧
    (rest = [] ∨ ∃ d t, rest = d :: t ∧ idChar d = false)

/-- Helper: `dropWhile` yields the empty list or a list whose head fails the
predicate. -/
lemma dropWhile_head_not (p : Char → Bool) (l : List Char) :
    l.dropWhile p = [] ∨ ∃ d t, l.dropWhile p = d :: t ∧ p d = false := by
  induction l with
  | nil => exact Or.inl rfl
  | cons c cs ih =>
    by_cases h : p c = true
    · rw [List.dropWhile_cons_of_pos h]
      exact ih
    · right
      refine ⟨c, cs, List.dropWhile_cons_of_neg h, ?_⟩
      simpa using h

/-- Helper: a successful marker match decomposes the input as the marker, a
maximal nonempty id run, and a remainder that is empty or stop-headed. -/
lemma tryMarker_eq_some (m cs id : List Char) (h : tryMarker m cs = some id) :
    ∃ rest, cs = m ++ (id ++ rest) ∧ id ≠ [] ∧
      (∀ c ∈ id, idChar c = true) ∧
      (rest = [] ∨ ∃ d t, rest = d :: t ∧ idChar d = false) := by
  unfold tryMarker at h
  by_cases htake : cs.take m.length = m
  · rw [if_pos htake] at h
    by_cases hemp : ((cs.drop m.length).takeWhile idChar).isEmpty = true
    · rw [if_pos hemp] at h
      cases h
    · rw [if_neg hemp] at h
      injection h with h
      subst h
      refine ⟨(cs.drop m.length).dropWhile idChar, ?_, ?_, ?_, ?_⟩
      · conv_lhs => rw [← List.take_append_drop m.length cs]
        rw [htake]
        congr 1
        exact (List.takeWhile_append_dropWhile (p := idChar)
          (l := cs.drop m.length)).symm
      · intro h0
        rw [h0] at hemp
        exact hemp rfl
      · intro c hc
        exact List.mem_takeWhile_imp hc
      · exact dropWhile_head_not idChar _
  · rw [if_neg htake] at h
    cases h

/-- Helper: a marker followed by an id character matches. -/
lemma tryMarker_of_head (m t : List Char) (c : Char) (hc : idChar c = true) :
    ∃ id, tryMarker m (m ++ c :: t) = some id := by
  unfold tryMarker
  have htake : (m ++ c :: t).take m.length = m := by simp
  have hdrop : (m ++ c :: t).drop m.length = c :: t := by simp
  rw [if_pos htake, hdrop, List.takeWhile_cons_of_pos hc]
  exact ⟨_, rfl⟩

/-- Helper: soundness of the scan: an extracted id satisfies the maximal-run
decomposition. -/
lemma findVideoId_sound (cs : List Char) :
    ∀ id, findVideoId cs = some id → IdRunSpec cs id := by
  induction cs with
  | nil => intro id h; cases h
  | cons c cs ih =>
    intro id h
    unfold findVideoId at h
    cases h1 : tryMarker marker1 (c :: cs) with
    | some id1 =>
      simp only [h1] at h
      injection h with h
      subst h
      obtain ⟨rest, hcs, hne, hall, hhead⟩ := tryMarker_eq_some _ _ _ h1
      exact ⟨[], marker1, rest, Or.inl rfl, by simpa using hcs, hne, hall, hhead⟩
    | none =>
      simp only [h1] at h
      cases h2 : tryMarker marker2 (c :: cs) with
      | some id2 =>
        simp only [h2] at h
        injection h with h
        subst h
        obtain ⟨rest, hcs, hne, hall, hhead⟩ := tryMarker_eq_some _ _ _ h2
        exact ⟨[], marker2, rest, Or.inr rfl, by simpa using hcs, hne, hall, hhead⟩
      | none =>
        simp only [h2] at h
        obtain ⟨pre, m, rest, hm, hcs, hne, hall, hhead⟩ := ih id h
        exact ⟨c :: pre, m, rest, hm, by simp [hcs], hne, hall, hhead⟩

/-- Helper: the scan succeeds when either marker alternative matches at the
head position. -/
lemma findVideoId_isSome_of_tryMarker (cs : List Char)
    (h : (tryMarker marker1 cs).isSome = true ∨
      (tryMarker marker2 cs).isSome = true) :
    (findVideoId cs).isSome = true := by
  cases cs with
  | nil =>
    have e1 : tryMarker marker1 [] = none := rfl
    have e2 : tryMarker marker2 [] = none := rfl
    rcases h with h | h
    · rw [e1] at h; cases h
    · rw [e2] at h; cases h
  | cons x cs =>
    unfold findVideoId
    cases h1 : tryMarker marker1 (x :: cs) with
    | some id => simp only [h1]; rfl
    | none =>
      simp only [h1]
      cases h2 : tryMarker marker2 (x :: cs) with
      | some id => simp only [h2]; rfl
      | none =>
        rcases h with h | h
        · rw [h1] at h; cases h
        · rw [h2] at h; cases h

/-- Helper: prepending a character preserves success of the scan. -/
lemma findVideoId_isSome_cons (x : Char) (cs : List Char)
    (h : (findVideoId cs).isSome = true) :
    (findVideoId (x :: cs)).isSome = true := by
  unfold findVideoId
  cases h1 : tryMarker marker1 (x :: cs) with
  | some id => simp only [h1]; rfl
  | none =>
    simp only [h1]
    cases h2 : tryMarker marker2 (x :: cs) with
    | some id => simp only [h2]; rfl
    | none => simp only [h2]; exact h

/-- Helper: completeness of the scan: any marker occurrence followed by an id
character makes it succeed. -/
lemma findVideoId_complete (pre m : List Char) (c : Char) (t : List Char)
    (hm : m = marker1 ∨ m = marker2) (hc : idChar c = true) :
    (findVideoId (pre ++ (m ++ c :: t))).isSome = true := by
  induction pre with
  | nil =>
    rw [List.nil_append]
    apply findVideoId_isSome_of_tryMarker
    obtain ⟨id, hid⟩ := tryMarker_of_head m t c hc
    rcases hm with hm | hm
    · subst hm
      left
      rw [hid]
      rfl
    · subst hm
      right
      rw [hid]
      rfl
  | cons x pre ih =>
    rw [List.cons_append]
    exact findVideoId_isSome_cons x _ ih

/-- Helper: a successful scan exhibits a marker occurrence followed by an id
character. -/
lemma hasVideoId_of_isSome (cs : List Char)
    (h : (findVideoId cs).isSome = true) : HasVideoId cs := by
  cases hfind : findVideoId cs with
  | none => rw [hfind] at h; cases h
  | some id =>
    obtain ⟨pre, m, rest, hm, hcs, hne, hall, _⟩ := findVideoId_sound cs id hfind
    cases id with
    | nil => exact absurd rfl hne
    | cons c0 id' =>
      refine ⟨pre, m, c0, id' ++ rest, hm, ?_, hall c0 (by simp)⟩
      rw [hcs]
      simp

/-- C3 counterexample: the empty URL has no marker match, yet a
`handleProcess` run on it alerts with the input-presence message, not with
"Invalid YouTube URL" as the claim states for every URL with no match. -/
theorem empty_url_alert_counterexample :
    extractVideoId "" = none ∧
    handleProcess "" "t" CleanOutcome.httpError (GenOutcome.httpError none) =
      (ProcessResult.alerted "Please provide both URL and transcript", []) ∧
    "Please provide both URL and transcript" ≠ "Invalid YouTube URL" :=
  ⟨rfl, rfl, by decide⟩

/-- C3 (amended): extraction succeeds exactly when a marker is followed by an
id character; the extracted id is the maximal id-character run after the
first match; a completed run derives the thumbnail URL from the id by pure
string concatenation; and on a run that passes the input-presence guard, a
URL with no match fails with "Invalid YouTube URL" and makes no relay
call. -/
theorem video_id_and_thumbnail (url : String) :
    ((extractVideoId url).isSome = true ↔ HasVideoId url.toList) ∧
    (∀ id, extractVideoId url = some id → IdRunSpec url.toList id.toList) ∧
    (∀ id tr c gc, extractVideoId url = some id → tr ≠ "" →
      ∃ r, (handleProcess url tr c (GenOutcome.ok gc)).1 =
        ProcessResult.completed r ∧
        r.thumbnailUrl =
          "https://img.youtube.com/vi/" ++ id ++ "/maxresdefault.jpg" ∧
        r.videoId = id) ∧
    (extractVideoId url = none → ∀ tr c g, url ≠ "" → tr ≠ "" →
      handleProcess url tr c g =
        (ProcessResult.alerted "Invalid YouTube URL", [])) := by
  refine ⟨?_, ?_, ?_, ?_⟩
  · constructor
    · intro h
      have h2 : (findVideoId url.toList).isSome = true := by
        simpa [extractVideoId] using h
      exact hasVideoId_of_isSome url.toList h2
    · rintro ⟨pre, m, c, t, hm, hcs, hc⟩
      have h2 : (findVideoId url.toList).isSome = true := by
        rw [hcs]
        exact findVideoId_complete pre m c t hm hc
      simpa [extractVideoId] using h2
  · intro id hv
    obtain ⟨l, hl, hmk⟩ := Option.map_eq_some'.mp hv
    have hlist : id.toList = l := by
      rw [← hmk]
      rfl
    exact hlist ▸ findVideoId_sound url.toList l hl
  · intro id tr c gc hv ht
    exact ⟨_, handleProcess_ok_completed url tr id c gc hv ht, rfl, rfl⟩
  · intro hnone tr c g hu htr
    have hfind : findVideoId url.toList = none := by
      simpa [extractVideoId] using hnone
    unfold handleProcess
    rw [if_neg (by simp [hu, htr])]
    simp only [extractVideoId, hfind, Option.map_none']

/-- Witness for the amended C3 at a matching and a non-matching URL. -/
theorem video_id_and_thumbnail_witness :
    (∃ r, (handleProcess "https://youtu.be/vid1" "tx" CleanOutcome.networkError
        (GenOutcome.ok ⟨"T", "D", [], [], none⟩)).1 =
      ProcessResult.completed r ∧
      r.thumbnailUrl =
        "https://img.youtube.com/vi/" ++ "vid1" ++ "/maxresdefault.jpg" ∧
      r.videoId = "vid1") ∧
    handleProcess "x" "tx" CleanOutcome.networkError (GenOutcome.httpError none) =
      (ProcessResult.alerted "Invalid YouTube URL", []) :=
  ⟨(video_id_and_thumbnail "https://youtu.be/vid1").2.2.1 "vid1" "tx"
      CleanOutcome.networkError ⟨"T", "D", [], [], none⟩ rfl (by decide),
    (video_id_and_thumbnail "x").2.2.2 rfl "tx" CleanOutcome.networkError
      (GenOutcome.httpError none) (by decide) (by decide)⟩
